import Mathlib

/-!
Shallow embedding of the cross-list rank estimation engine of the
RoyalRoadTracking repository (src/genre_rising_stars_checker.py, with the
staging copy src/genre_rising_stars_checker_staging.py agreeing on every
embedded function). Positions are modelled as integers, the floating-point
scaling arithmetic as rationals, and Python `int(round(x))` as round-half-
to-even. Markup parsing, logging and HTTP plumbing are outside the embedded
core; list entries are reduced to the fields the estimator reads
(`book_id`, `position`).
-/

namespace RisingStars

/-- Python 3 `round` to an integer: round half to even (banker's rounding),
as applied at src/genre_rising_stars_checker.py line 729 via
`int(round(estimated_position))`. The floor is computed as the Euclidean
quotient of numerator by (positive) denominator so that it reduces inside
the kernel. -/
def pythonRound (q : ℚ) : ℤ :=
  let f : ℤ := q.num.ediv q.den
  let frac := q - (f : ℚ)
  if frac < 1/2 then f
  else if 1/2 < frac then f + 1
  else if f % 2 = 0 then f else f + 1

/-- One entry of a fetched Rising Stars list, reduced to the fields the
estimator reads from `parse_rising_stars_book_data` output: the book id and
the 1-based position assigned by enumeration (lines 620-627). -/
structure BookEntry where
  book_id : ℕ
  position : ℤ
deriving DecidableEq, Repr

/-- A book present in both a genre list and the main list, carrying both
positions (the `common_books` dicts built at lines 652-662). -/
structure CommonBook where
  book_id : ℕ
  genre_position : ℤ
  main_position : ℤ
deriving DecidableEq, Repr

/-- The intersection loop of `process_genre_estimate` (lines 652-662): for
each genre book, the first main-list book with the same id contributes a
common-book record (the inner loop breaks at the first match). -/
def commonBooksOf (genreBooks mainBooks : List BookEntry) : List CommonBook :=
  genreBooks.filterMap fun g =>
    (mainBooks.find? fun m => m.book_id == g.book_id).map fun m =>
      { book_id := g.book_id, genre_position := g.position, main_position := m.position }

/-- Stable insertion step for sorting common books by `main_position`
ascending, matching Python `sorted(common_books, key=lambda x: x["main_position"])`
at line 677 (stable: an element inserted later never moves before an equal key). -/
def insertCB (x : CommonBook) : List CommonBook → List CommonBook
  | [] => [x]
  | y :: ys => if x.main_position ≤ y.main_position then x :: y :: ys else y :: insertCB x ys

/-- Stable ascending sort by `main_position` (line 677). -/
def sortCB : List CommonBook → List CommonBook
  | [] => []
  | x :: xs => insertCB x (sortCB xs)

inductive Status where
  | inRange
  | outsideRange
deriving DecidableEq, Repr

/-- The per-genre estimate record built at lines 749-781, reduced to the
numeric/status fields (titles and message strings omitted).
`positions_away` is present exactly when the estimate is OUTSIDE_RANGE,
mirroring the conditional key insertion at line 780. -/
structure GenreEstimate where
  scaling_factor : ℚ
  estimated_position : ℤ
  main_rs_size : ℕ
  common_books_count : ℕ
  status : Status
  positions_away : Option ℤ
deriving DecidableEq, Repr

/-- Result of `process_genre_estimate`: the early fetch-failure error dict
(line 649), the no-common-books message dict (lines 665-674), or a genre
estimate. -/
inductive GenreResult where
  | fetchError
  | noCommon
  | estimate (e : GenreEstimate)
deriving DecidableEq, Repr

/-- Lines 728-781 of `process_genre_estimate`: round the estimate, compute
`positions_away = max(0, estimated - len(main_rs_books))` (line 732), and
classify IN_RANGE/OUTSIDE_RANGE against the main list size (lines 773-781). -/
def finishEstimate (sf : ℚ) (estQ : ℚ) (size : ℕ) (count : ℕ) : GenreResult :=
  let estI := pythonRound estQ
  let positions_away := max 0 (estI - size)
  if estI ≤ (size : ℤ) then
    .estimate { scaling_factor := sf, estimated_position := estI, main_rs_size := size,
                common_books_count := count, status := .inRange, positions_away := none }
  else
    .estimate { scaling_factor := sf, estimated_position := estI, main_rs_size := size,
                common_books_count := count, status := .outsideRange,
                positions_away := some positions_away }

/-- `process_genre_estimate` (lines 643-782), on already-fetched lists: the
genre list (empty on fetch failure, since `get_books_for_genre` returns `[]`
when its fetch raises), the main list, and the book's observed genre
position. Matching the source: empty genre list yields the error dict
(line 649); empty common-book intersection yields the no-common message
(line 665, equivalent here to the sorted list being empty); otherwise the
sorted list's head is `highest_on_main` and its last element `lowest_on_main`
(lines 680-681), with the single-anchor branch taken when there is at most
one common book or the two endpoints are the same book (line 689). -/
def process_genre_estimate (genre_position : ℤ) (genreBooks mainBooks : List BookEntry) :
    GenreResult :=
  if genreBooks.isEmpty then .fetchError
  else
    match sortCB (commonBooksOf genreBooks mainBooks) with
    | [] => .noCommon
    | highest :: rest =>
      let lowest := rest.getLastD highest
      if rest.isEmpty ∨ highest.book_id = lowest.book_id then
        -- lines 688-704: single reference point
        let genre_distance := |genre_position - highest.genre_position|
        let estimated : ℤ :=
          if genre_position < highest.genre_position then
            max 1 (highest.main_position - genre_distance)
          else
            highest.main_position + genre_distance
        finishEstimate 1 (estimated : ℚ) mainBooks.length (rest.length + 1)
      else
        -- lines 706-726: two-anchor interpolation
        let main_distance := lowest.main_position - highest.main_position
        let genre_span := |lowest.genre_position - highest.genre_position|
        let genre_span := if genre_span = 0 then 1 else genre_span
        let scaling_factor : ℚ := (main_distance : ℚ) / (genre_span : ℚ)
        let genre_distance_from_highest := |genre_position - highest.genre_position|
        let estQ : ℚ :=
          if genre_position < highest.genre_position then
            max 1 ((highest.main_position : ℚ) - (genre_distance_from_highest : ℚ) * scaling_factor)
          else
            (highest.main_position : ℚ) + (genre_distance_from_highest : ℚ) * scaling_factor
        finishEstimate scaling_factor estQ mainBooks.length (rest.length + 1)

/-- One argument of `create_combined_estimate` (lines 795-855), abstracting
the loosely-typed dicts: `invalid` covers the empty dict `{}` and error/
no-common dicts (anything without an `estimated_position` key, which also
fails the truthiness test at lines 805-806); `insuff` a dict carrying the
`insufficient_data` flag (line 800); `est` a genre estimate. -/
inductive CombInput where
  | invalid
  | insuff (genre : String) (position : ℤ)
  | est (e : GenreEstimate)
deriving DecidableEq, Repr

/-- The `valid_estimates` list built at lines 808-814, in source order
best, worst, middle. -/
def validEstimates (b w m : CombInput) : List (String × GenreEstimate) :=
  (match b with | .est e => [("best", e)] | _ => []) ++
  (match w with | .est e => [("worst", e)] | _ => []) ++
  (match m with | .est e => [("middle", e)] | _ => [])

/-- Stable insertion step for sorting labelled estimates by
`estimated_position` descending, matching the Python stable
`valid_estimates.sort(key=..., reverse=True)` at line 828 (an element
inserted later never moves before an equal key). -/
def insertDescE (x : String × GenreEstimate) :
    List (String × GenreEstimate) → List (String × GenreEstimate)
  | [] => [x]
  | y :: ys =>
    if y.2.estimated_position ≤ x.2.estimated_position then x :: y :: ys
    else y :: insertDescE x ys

/-- Stable descending sort by `estimated_position` (line 828). -/
def sortDescE : List (String × GenreEstimate) → List (String × GenreEstimate)
  | [] => []
  | x :: xs => insertDescE x (sortDescE xs)

/-- The combined-estimate record assembled at lines 797-853, reduced to its
numeric/status fields: `positions_away` is present exactly in the
OUTSIDE_RANGE branch (line 842), `average_position` exactly when more than
one estimate is valid (lines 846-848), and `average_note` records whether
the divergence note of lines 851-853 is attached. -/
structure CombinedEstimate where
  estimated_position : ℤ
  prioritized : String
  status : Status
  positions_away : Option ℤ
  average_position : Option ℤ
  average_note : Bool
  main_rs_size : ℕ
deriving DecidableEq, Repr

/-- Result of `create_combined_estimate`: the pass-through of an
insufficient-data input (lines 800-801), the UNKNOWN dict when no estimate
is valid (lines 816-820), or a combined estimate. -/
inductive CombinedResult where
  | insufficientPassthrough (genre : String) (position : ℤ)
  | unknown
  | combined (c : CombinedEstimate)
deriving DecidableEq, Repr

/-- `create_combined_estimate` (lines 795-855, identical at
src/genre_rising_stars_checker_staging.py lines 454-514): pass through an
insufficient-data best input; otherwise collect the valid estimates, sort
them by estimated position descending and select the first (worst), classify
it against `main_rs_size`, and with more than one valid estimate also record
the banker's-rounded average and whether it diverges from the selection by
more than 5. -/
def create_combined_estimate (b w m : CombInput) (main_rs_size : ℕ) : CombinedResult :=
  match b with
  | .insuff g p => .insufficientPassthrough g p
  | _ =>
    match sortDescE (validEstimates b w m) with
    | [] => .unknown
    | sel :: stail =>
      let selPos := sel.2.estimated_position
      let avg : Option ℤ :=
        if stail.isEmpty then none
        else
          let total : ℤ := ((sel :: stail).map fun le => le.2.estimated_position).foldl (· + ·) 0
          some (pythonRound ((total : ℚ) / ((sel :: stail).length : ℚ)))
      let note : Bool :=
        match avg with
        | some a => decide (5 < |selPos - a|)
        | none => false
      if selPos ≤ (main_rs_size : ℤ) then
        .combined { estimated_position := selPos, prioritized := sel.1, status := .inRange,
                    positions_away := none, average_position := avg, average_note := note,
                    main_rs_size := main_rs_size }
      else
        .combined { estimated_position := selPos, prioritized := sel.1, status := .outsideRange,
                    positions_away := some (selPos - main_rs_size), average_position := avg,
                    average_note := note, main_rs_size := main_rs_size }

/-- Stable insertion step for sorting (genre, position) pairs by position
ascending, matching `sorted(book_positions.items(), key=lambda x: x[1])` at
line 909 (Python dicts iterate in insertion order, so the input list order
is the dict order and the sort is stable over it). -/
def insertGP (x : String × ℤ) : List (String × ℤ) → List (String × ℤ)
  | [] => [x]
  | y :: ys => if x.2 ≤ y.2 then x :: y :: ys else y :: insertGP x ys

/-- Stable ascending sort by observed position (line 909). -/
def sortGP : List (String × ℤ) → List (String × ℤ)
  | [] => []
  | x :: xs => insertGP x (sortGP xs)

/-- The suitability test of lines 913-942: a genre qualifies when its
common-book intersection with the main list, sorted by main position, has
more than one entry and the main-position spread between its last and first
entries is at least 5. -/
def isSuitable (mainBooks : List BookEntry) (genreFetch : String → List BookEntry)
    (gp : String × ℤ) : Bool :=
  match sortCB (commonBooksOf (genreFetch gp.1) mainBooks) with
  | [] => false
  | c :: cs => decide (0 < cs.length ∧ 5 ≤ (cs.getLastD c).main_position - c.main_position)

/-- Result of `estimate_distance_to_main_rs`: the fatal reference-list
error dict (line 885), the not-on-any-genre-list message (line 895), the
insufficient-data verdict (lines 898-906, carrying only the single genre
name and position — no numeric estimate field exists), or the estimates
dict with the per-list results and the combined estimate (lines 977-993). -/
inductive EstimateOutcome where
  | fatalError
  | noGenres
  | insufficientData (genre : String) (position : ℤ)
  | estimates (best : GenreResult) (worst middle : Option GenreResult)
      (combined : CombinedResult)
deriving DecidableEq, Repr

/-- `estimates.get(label + "_genre_estimate", {})` as a combiner argument
(lines 986-990): a missing entry is the empty dict, an error or no-common
dict lacks `estimated_position`; both are `invalid` inputs. -/
def toCombInput : Option GenreResult → CombInput
  | some (.estimate e) => .est e
  | _ => .invalid

/-- `estimate_distance_to_main_rs` (lines 857-1003), on already-fetched
data: `mainBooks` is the main Rising Stars snapshot (empty when
`get_book_details_from_main_rs` failed, since it returns `[]` on exception),
`bookPositions` the (genre, position) pairs extracted from the per-genre
results at lines 888-892 in dict insertion order, and `genreFetch` the
cached genre fetch `get_books_for_genre` (returning `[]` for a genre whose
fetch failed). Mirrors the source flow: fatal error when the main list is
missing (line 885); no-genre message when the book is on no genre list
(line 895); the insufficient-data verdict when it is on exactly one
(lines 898-906); otherwise sort genres by position, keep the suitable ones
(falling back to the first three sorted genres when none qualifies,
lines 947-950), process the best, worst (if a second exists) and middle
(if a third exists) genres, and combine (lines 952-993). -/
def estimate_distance_to_main_rs (mainBooks : List BookEntry)
    (bookPositions : List (String × ℤ)) (genreFetch : String → List BookEntry) :
    EstimateOutcome :=
  if mainBooks.isEmpty then .fatalError
  else
    match bookPositions with
    | [] => .noGenres
    | (g, p) :: _ =>
      if bookPositions.length < 2 then .insufficientData g p
      else
        let sorted_genres := sortGP bookPositions
        let suitable := sorted_genres.filter (isSuitable mainBooks genreFetch)
        let selected := if suitable.isEmpty then sorted_genres.take 3 else suitable
        match selected with
        | [] => .noGenres  -- unreachable: sorted_genres has at least two entries
        | s0 :: srest =>
          let best := process_genre_estimate s0.2 (genreFetch s0.1) mainBooks
          let worst :=
            if srest.isEmpty then none
            else
              let sl := srest.getLastD s0
              some (process_genre_estimate sl.2 (genreFetch sl.1) mainBooks)
          let middle :=
            if 3 ≤ (s0 :: srest).length then
              let sm := (s0 :: srest).getD ((s0 :: srest).length / 2) s0
              some (process_genre_estimate sm.2 (genreFetch sm.1) mainBooks)
            else none
          .estimates best worst middle
            (create_combined_estimate (toCombInput (some best)) (toCombInput worst)
              (toCombInput middle) mainBooks.length)

/-! ### Retrieval cache (src lines 74-77, 600-641)

`cache = cachetools.TTLCache(maxsize=100, ttl=30*60)`: a key maps to at most
one entry, stored with expiry `insertion time + ttl` and visible while the
current time is strictly before that expiry. The get-or-fetch discipline of
`get_books_for_genre` (lines 600-641) is: return the cached value on an
unexpired hit, otherwise run the fetch, store its result and return it. -/

/-- TTL of the module cache: 30 minutes (line 76). -/
def cacheTTL : ℤ := 30 * 60

structure CacheEntry (α : Type) where
  key : String
  value : α
  expiry : ℤ
deriving DecidableEq, Repr

/-- Lookup models `if cache_key in cache: return cache[cache_key]` on a
TTLCache: the unique entry for the key is visible while `now < expiry`. -/
def cacheLookup {α : Type} (entries : List (CacheEntry α)) (k : String) (now : ℤ) :
    Option α :=
  match entries.find? fun e => e.key == k with
  | some e => if now < e.expiry then some e.value else none
  | none => none

/-- Store models `cache[cache_key] = value`: replace any entry for the key,
with expiry `now + ttl`. -/
def cacheStore {α : Type} (entries : List (CacheEntry α)) (k : String) (v : α) (now : ℤ) :
    List (CacheEntry α) :=
  { key := k, value := v, expiry := now + cacheTTL } :: entries.filter fun e => !(e.key == k)

/-- The get-or-fetch discipline of `get_books_for_genre` (lines 600-641):
on an unexpired hit return the cached value, otherwise invoke the fetch
(whose successful result is `fetched`), store it, and return it. The Bool
records whether the underlying fetch ran. -/
def get_or_fetch {α : Type} (entries : List (CacheEntry α)) (k : String) (now : ℤ)
    (fetched : α) : α × List (CacheEntry α) × Bool :=
  match cacheLookup entries k now with
  | some v => (v, entries, false)
  | none => (fetched, cacheStore entries k fetched now, true)

/-! ### Resilient fetch (src lines 458-477, staging lines 82-101)

`fetch_with_retries` makes up to `max_retries = 3` attempts. An attempt is
modelled by its observable outcome: `none` when the HTTP call raises (or
`raise_for_status` fires), `some body` when it returns a body. A returned
body shorter than 500 characters raises "Response content is suspiciously
short" and is handled like any other failure; a non-final failure sleeps
and retries, the final one raises the exhaustion error. -/

/-- The retry loop of `fetch_with_retries`, by remaining attempts: `start`
is the index of the current attempt. -/
def fetchFrom (attempt : ℕ → Option String) : ℕ → ℕ → Except String String
  | _, 0 => .error "Failed to fetch data after 3 attempts"
  | start, fuel + 1 =>
    match attempt start with
    | some body =>
      if body.length < 500 then fetchFrom attempt (start + 1) fuel
      else .ok body
    | none => fetchFrom attempt (start + 1) fuel

/-- `fetch_with_retries` with its default `max_retries=3` (line 458). -/
def fetch_with_retries (attempt : ℕ → Option String) : Except String String :=
  fetchFrom attempt 0 3

/-! ### Concrete fixtures

Snapshot data used to instantiate the theorems on the spec's scenarios and
on counterexamples. `scenarioAMain` is a 50-entry main list whose books at
positions 10 and 40 reappear in `scenarioAGenre` at genre positions 3 and
30 (spec Scenario A). -/

def scenarioAMain : List BookEntry :=
  (List.range 50).map fun i =>
    if i = 9 then { book_id := 101, position := 10 }
    else if i = 39 then { book_id := 102, position := 40 }
    else { book_id := i + 1, position := (i : ℤ) + 1 }

def scenarioAGenre : List BookEntry :=
  [{ book_id := 101, position := 3 }, { book_id := 102, position := 30 }]

/-- A 3-entry main list whose book 7 (main position 3) reappears in
`singleAnchorGenre` at genre position 20: the single-anchor fixture. -/
def singleAnchorMain : List BookEntry :=
  [{ book_id := 5, position := 1 }, { book_id := 6, position := 2 },
   { book_id := 7, position := 3 }]

def singleAnchorGenre : List BookEntry :=
  [{ book_id := 100, position := 1 }, { book_id := 7, position := 20 }]

/-- A 20-entry main list with book 201 at main position 5 and book 202 at
main position 20; in `invertedGenre` book 202 ranks at genre position 3,
above book 201 at genre position 10 — the anchors are inverted between the
two lists. -/
def invertedMain : List BookEntry :=
  (List.range 20).map fun i =>
    if i = 4 then { book_id := 201, position := 5 }
    else if i = 19 then { book_id := 202, position := 20 }
    else { book_id := i + 1, position := (i : ℤ) + 1 }

def invertedGenre : List BookEntry :=
  [{ book_id := 202, position := 3 }, { book_id := 201, position := 10 }]

/-- A valid per-list estimate with five common books and estimated
position 10. -/
def fiveAnchorEstimate : GenreEstimate :=
  { scaling_factor := 1, estimated_position := 10, main_rs_size := 50,
    common_books_count := 5, status := .inRange, positions_away := none }

/-- A valid per-list estimate with two common books and the worse estimated
position 20. -/
def twoAnchorEstimate : GenreEstimate :=
  { scaling_factor := 1, estimated_position := 20, main_rs_size := 50,
    common_books_count := 2, status := .inRange, positions_away := none }

/-- The estimate `process_genre_estimate` produces on Scenario A
(observed genre position 15 against `scenarioAGenre`/`scenarioAMain`). -/
def scenarioAEstimate : GenreEstimate :=
  { scaling_factor := 10/9, estimated_position := 23, main_rs_size := 50,
    common_books_count := 2, status := .inRange, positions_away := none }

/-- A 500-character response body. -/
def longBody : String := String.mk (List.replicate 500 'a')

/-! ### General lemmas about the embedded operations -/

theorem pythonRound_intCast (n : ℤ) : pythonRound (n : ℚ) = n := by
  unfold pythonRound
  dsimp only
  rw [Rat.num_intCast, Rat.den_intCast, Nat.cast_one,
    show n.ediv 1 = n from Int.ediv_one n]
  norm_num

theorem finishEstimate_spec (sf estQ : ℚ) (size count : ℕ) :
    ∃ e, finishEstimate sf estQ size count = .estimate e ∧ e.scaling_factor = sf ∧
      e.estimated_position = pythonRound estQ ∧ e.main_rs_size = size ∧
      e.common_books_count = count ∧
      (e.status = .inRange ↔ e.estimated_position ≤ (size : ℤ)) ∧
      (e.status = .outsideRange ↔ ¬ e.estimated_position ≤ (size : ℤ)) ∧
      (e.status = .outsideRange → e.positions_away = some (e.estimated_position - size)) := by
  unfold finishEstimate
  dsimp only
  split_ifs with h
  · exact ⟨_, rfl, rfl, rfl, rfl, rfl, by simpa using h, by simpa using h, by simp⟩
  · refine ⟨_, rfl, rfl, rfl, rfl, rfl, by simpa using h, by simpa using h, fun _ => ?_⟩
    simp only [Option.some.injEq]
    omega

theorem abs_ite_eq_max (x : ℤ) : (if |x| = 0 then 1 else |x|) = max 1 |x| := by
  rcases eq_or_ne |x| 0 with h | h
  · simp [h]
  · have h0 : 0 ≤ |x| := abs_nonneg x
    rw [if_neg h]
    omega

/-- Evaluating `process_genre_estimate` on a list whose sorted common-book
intersection has distinct head `H` and last element `L`: the two-anchor
branch runs with `H` as `highest_on_main` and `L` as `lowest_on_main`. -/
theorem process_genre_estimate_two_anchor (pos : ℤ) (gb mb : List BookEntry)
    (H L : CommonBook) (rest : List CommonBook)
    (hgb : gb ≠ []) (hsort : sortCB (commonBooksOf gb mb) = H :: rest)
    (hrest : rest ≠ []) (hlast : rest.getLastD H = L) (hid : H.book_id ≠ L.book_id) :
    ∃ e, process_genre_estimate pos gb mb = .estimate e ∧
      e.scaling_factor = ((L.main_position - H.main_position : ℤ) : ℚ) /
        ((max 1 |L.genre_position - H.genre_position| : ℤ) : ℚ) ∧
      e.estimated_position = pythonRound
        (if pos < H.genre_position then
          max 1 ((H.main_position : ℚ) - ((|pos - H.genre_position| : ℤ) : ℚ) *
            (((L.main_position - H.main_position : ℤ) : ℚ) /
              ((max 1 |L.genre_position - H.genre_position| : ℤ) : ℚ)))
         else (H.main_position : ℚ) + ((|pos - H.genre_position| : ℤ) : ℚ) *
            (((L.main_position - H.main_position : ℤ) : ℚ) /
              ((max 1 |L.genre_position - H.genre_position| : ℤ) : ℚ))) ∧
      e.main_rs_size = mb.length ∧ e.common_books_count = rest.length + 1 := by
  have hgb' : gb.isEmpty = false := by simpa [List.isEmpty_iff] using hgb
  have hrest' : rest.isEmpty = false := by simpa [List.isEmpty_iff] using hrest
  unfold process_genre_estimate
  rw [hgb']
  simp only [Bool.false_eq_true, if_false]
  rw [hsort]
  dsimp only
  rw [hlast, hrest']
  simp only [Bool.false_eq_true, false_or]
  rw [if_neg hid, abs_ite_eq_max]
  obtain ⟨e, he, h1, h2, h3, h4, -⟩ :=
    finishEstimate_spec
      (((L.main_position - H.main_position : ℤ) : ℚ) /
        ((max 1 |L.genre_position - H.genre_position| : ℤ) : ℚ))
      (if pos < H.genre_position then
        max 1 ((H.main_position : ℚ) - ((|pos - H.genre_position| : ℤ) : ℚ) *
          (((L.main_position - H.main_position : ℤ) : ℚ) /
            ((max 1 |L.genre_position - H.genre_position| : ℤ) : ℚ)))
       else (H.main_position : ℚ) + ((|pos - H.genre_position| : ℤ) : ℚ) *
          (((L.main_position - H.main_position : ℤ) : ℚ) /
            ((max 1 |L.genre_position - H.genre_position| : ℤ) : ℚ)))
      mb.length (rest.length + 1)
  exact ⟨e, he, h1, h2, h3, h4⟩

/-- Evaluating `process_genre_estimate` on a list whose sorted common-book
intersection is the single anchor `a`: the single-reference-point branch
runs and the estimate stays an integer. -/
theorem process_genre_estimate_single_anchor (pos : ℤ) (gb mb : List BookEntry)
    (a : CommonBook) (hgb : gb ≠ [])
    (hsort : sortCB (commonBooksOf gb mb) = [a]) :
    ∃ e, process_genre_estimate pos gb mb = .estimate e ∧
      e.scaling_factor = 1 ∧
      e.estimated_position =
        (if pos < a.genre_position then
          max 1 (a.main_position - |pos - a.genre_position|)
         else a.main_position + |pos - a.genre_position|) ∧
      e.main_rs_size = mb.length ∧ e.common_books_count = 1 := by
  have hgb' : gb.isEmpty = false := by simpa [List.isEmpty_iff] using hgb
  unfold process_genre_estimate
  rw [hgb']
  simp only [Bool.false_eq_true, if_false]
  rw [hsort]
  dsimp only
  rw [if_pos (Or.inl List.isEmpty_nil)]
  simp only [List.length_nil]
  obtain ⟨e, he, h1, h2, h3, h4, -⟩ :=
    finishEstimate_spec 1
      ((if pos < a.genre_position then
          max 1 (a.main_position - |pos - a.genre_position|)
        else a.main_position + |pos - a.genre_position| : ℤ) : ℚ)
      mb.length 1
  exact ⟨e, he, h1, by rw [h2, pythonRound_intCast], h3, h4⟩

/-- The head of the descending sort is a member of the list and dominates
every element: the combiner's "worst" selection is a maximum. -/
theorem sortDescE_head (l : List (String × GenreEstimate)) (hl : l ≠ []) :
    ∃ h t, sortDescE l = h :: t ∧ h ∈ l ∧
      ∀ y ∈ l, y.2.estimated_position ≤ h.2.estimated_position := by
  induction l with
  | nil => exact absurd rfl hl
  | cons a l ih =>
    rcases eq_or_ne l [] with rfl | hne
    · exact ⟨a, [], rfl, by simp, by simp⟩
    · obtain ⟨h, t, hsort, hmem, hdom⟩ := ih hne
      show ∃ h' t', insertDescE a (sortDescE l) = h' :: t' ∧ _
      rw [hsort]
      unfold insertDescE
      split_ifs with hc
      · exact ⟨a, h :: t, rfl, by simp,
          by
            intro y hy
            rcases List.mem_cons.1 hy with rfl | hy
            · exact le_refl _
            · exact (hdom y hy).trans hc⟩
      · push_neg at hc
        refine ⟨h, insertDescE a t, rfl, List.mem_cons_of_mem _ hmem, ?_⟩
        intro y hy
        rcases List.mem_cons.1 hy with rfl | hy
        · exact hc.le
        · exact hdom y hy

theorem insertGP_length (x : String × ℤ) (l : List (String × ℤ)) :
    (insertGP x l).length = l.length + 1 := by
  induction l with
  | nil => rfl
  | cons y ys ih =>
    unfold insertGP
    split_ifs
    · rfl
    · simp only [List.length_cons, ih]

theorem sortGP_length (l : List (String × ℤ)) : (sortGP l).length = l.length := by
  induction l with
  | nil => rfl
  | cons x xs ih =>
    unfold sortGP
    rw [insertGP_length, ih, List.length_cons]

/-- Status bookkeeping of `finishEstimate`, extracted for reuse. -/
theorem finishEstimate_status (sf estQ : ℚ) (size count : ℕ) (e : GenreEstimate)
    (h : finishEstimate sf estQ size count = .estimate e) :
    (e.status = .inRange ↔ e.estimated_position ≤ (e.main_rs_size : ℤ)) ∧
    (e.status = .outsideRange → e.positions_away = some (e.estimated_position - e.main_rs_size)) := by
  obtain ⟨e2, he2, -, -, hsize, -, hin, -, hpos⟩ := finishEstimate_spec sf estQ size count
  rw [he2] at h
  injection h with h
  subst h
  rw [hsize]
  exact ⟨hin, hpos⟩

/-- A failed attempt (raised request or suspiciously short body) makes the
retry loop move on to the next attempt with one unit of budget spent. -/
theorem fetchFrom_step (attempt : ℕ → Option String) (start fuel : ℕ)
    (h : attempt start = none ∨ ∃ b, attempt start = some b ∧ b.length < 500) :
    fetchFrom attempt start (fuel + 1) = fetchFrom attempt (start + 1) fuel := by
  rcases h with h | ⟨b, hb, hlen⟩
  · conv_lhs => rw [fetchFrom]
    rw [h]
  · conv_lhs => rw [fetchFrom]
    rw [hb]
    dsimp only
    rw [if_pos hlen]

/-- Any body the retry loop returns passed the length check. -/
theorem fetchFrom_ok_length (attempt : ℕ → Option String) :
    ∀ (fuel start : ℕ) (body : String),
      fetchFrom attempt start fuel = .ok body → 500 ≤ body.length := by
  intro fuel
  induction fuel with
  | zero =>
    intro start body h
    exact absurd h (by simp [fetchFrom])
  | succ k ih =>
    intro start body h
    rw [fetchFrom] at h
    cases hat : attempt start with
    | none =>
      rw [hat] at h
      exact ih _ _ h
    | some s =>
      rw [hat] at h
      dsimp only at h
      by_cases hlen : s.length < 500
      · rw [if_pos hlen] at h
        exact ih _ _ h
      · rw [if_neg hlen] at h
        injection h with h
        subst h
        omega

/-! ### Claim theorems -/

/-- C1 counterexample: with two valid estimates, one carrying five common
books and estimated position 10 and the other only two common books but the
worse estimated position 20, `create_combined_estimate` selects position 20
— it sorts purely by estimated position (line 828) and never consults
`common_books_count`. The claim's rule ("most anchors, ties broken by the
worse position") would select position 10. -/
theorem combiner_ignores_anchor_count_cx :
    fiveAnchorEstimate.common_books_count = 5 ∧
    twoAnchorEstimate.common_books_count = 2 ∧
    fiveAnchorEstimate.estimated_position = 10 ∧
    create_combined_estimate (.est fiveAnchorEstimate) (.est twoAnchorEstimate) .invalid 50 =
      .combined { estimated_position := 20, prioritized := "worst", status := .inRange,
                  positions_away := none, average_position := some 15, average_note := false,
                  main_rs_size := 50 } ∧
    (20 : ℤ) ≠ fiveAnchorEstimate.estimated_position := by
  with_unfolding_all decide

/-- C1 (amended): with at least two valid per-list estimates (and no
insufficient-data pass-through), the combiner selects the estimate with the
largest — worst — estimated position, regardless of anchor counts, and the
combined estimate's `estimated_position` equals the selected one's. -/
theorem combiner_selects_largest_estimate (b w m : CombInput) (size : ℕ)
    (hb : ∀ g p, b ≠ .insuff g p)
    (h2 : 2 ≤ (validEstimates b w m).length) :
    ∃ c, create_combined_estimate b w m size = .combined c ∧
      c.estimated_position ∈ (validEstimates b w m).map (fun le => le.2.estimated_position) ∧
      ∀ q ∈ (validEstimates b w m).map (fun le => le.2.estimated_position),
        q ≤ c.estimated_position := by
  have hne : validEstimates b w m ≠ [] := by
    intro h
    rw [h] at h2
    simp at h2
  obtain ⟨hd, tl, hsort, hmem, hdom⟩ := sortDescE_head _ hne
  have hsel : ∀ c, create_combined_estimate b w m size = .combined c →
      c.estimated_position = hd.2.estimated_position := by
    intro c hc
    cases b with
    | insuff g p => exact absurd rfl (hb g p)
    | invalid =>
      unfold create_combined_estimate at hc
      rw [hsort] at hc
      dsimp only at hc
      split_ifs at hc <;> (injection hc with hc; rw [← hc])
    | est e =>
      unfold create_combined_estimate at hc
      rw [hsort] at hc
      dsimp only at hc
      split_ifs at hc <;> (injection hc with hc; rw [← hc])
  have hex : ∃ c, create_combined_estimate b w m size = .combined c := by
    cases b with
    | insuff g p => exact absurd rfl (hb g p)
    | invalid =>
      unfold create_combined_estimate
      rw [hsort]
      dsimp only
      split_ifs <;> exact ⟨_, rfl⟩
    | est e =>
      unfold create_combined_estimate
      rw [hsort]
      dsimp only
      split_ifs <;> exact ⟨_, rfl⟩
  obtain ⟨c, hc⟩ := hex
  refine ⟨c, hc, ?_, ?_⟩
  · rw [hsel c hc]
    exact List.mem_map_of_mem _ hmem
  · intro q hq
    obtain ⟨y, hy, rfl⟩ := List.mem_map.1 hq
    rw [hsel c hc]
    exact hdom y hy

/-- C1 witness: the amended selection rule at the counterexample inputs. -/
theorem combiner_selects_largest_estimate_witness :
    (∀ g p, CombInput.est fiveAnchorEstimate ≠ CombInput.insuff g p) ∧
    2 ≤ (validEstimates (.est fiveAnchorEstimate) (.est twoAnchorEstimate) .invalid).length ∧
    ∃ c, create_combined_estimate (.est fiveAnchorEstimate) (.est twoAnchorEstimate)
        .invalid 50 = .combined c ∧
      c.estimated_position ∈ ((validEstimates (.est fiveAnchorEstimate)
        (.est twoAnchorEstimate) .invalid).map (fun le => le.2.estimated_position)) ∧
      ∀ q ∈ ((validEstimates (.est fiveAnchorEstimate) (.est twoAnchorEstimate)
        .invalid).map (fun le => le.2.estimated_position)), q ≤ c.estimated_position :=
  ⟨fun _ _ h => CombInput.noConfusion h, by decide,
   combiner_selects_largest_estimate (.est fiveAnchorEstimate) (.est twoAnchorEstimate)
     .invalid 50 (fun _ _ h => CombInput.noConfusion h) (by decide)⟩

/-- C2: with at least two distinct anchors, the per-list estimator computes
`scaling_factor = (L.main − H.main) / max(1, |L.genre − H.genre|)` and the
estimate is `H.main ∓ |observed − H.genre| × scaling_factor` (minus, clamped
to 1, when the item ranks above `H`; plus otherwise), rounded; in
particular Scenario A (reference size 50, anchors (3,10) and (30,40), item
at 15) yields 23, IN_RANGE. -/
theorem two_anchor_formula_and_scenarioA :
    (∀ (pos : ℤ) (gb mb : List BookEntry) (H L : CommonBook) (rest : List CommonBook),
      gb ≠ [] → sortCB (commonBooksOf gb mb) = H :: rest → rest ≠ [] →
      rest.getLastD H = L → H.book_id ≠ L.book_id →
      ∃ e, process_genre_estimate pos gb mb = .estimate e ∧
        e.scaling_factor = ((L.main_position - H.main_position : ℤ) : ℚ) /
          ((max 1 |L.genre_position - H.genre_position| : ℤ) : ℚ) ∧
        e.estimated_position = pythonRound
          (if pos < H.genre_position then
            max 1 ((H.main_position : ℚ) - ((|pos - H.genre_position| : ℤ) : ℚ) *
              (((L.main_position - H.main_position : ℤ) : ℚ) /
                ((max 1 |L.genre_position - H.genre_position| : ℤ) : ℚ)))
           else (H.main_position : ℚ) + ((|pos - H.genre_position| : ℤ) : ℚ) *
              (((L.main_position - H.main_position : ℤ) : ℚ) /
                ((max 1 |L.genre_position - H.genre_position| : ℤ) : ℚ)))) ∧
    scenarioAMain.length = 50 ∧
    sortCB (commonBooksOf scenarioAGenre scenarioAMain) =
      [{ book_id := 101, genre_position := 3, main_position := 10 },
       { book_id := 102, genre_position := 30, main_position := 40 }] ∧
    process_genre_estimate 15 scenarioAGenre scenarioAMain = .estimate scenarioAEstimate ∧
    scenarioAEstimate.estimated_position = 23 ∧ scenarioAEstimate.status = .inRange := by
  refine ⟨?_, by with_unfolding_all decide, by with_unfolding_all decide,
    by with_unfolding_all decide, by with_unfolding_all decide, by with_unfolding_all decide⟩
  intro pos gb mb H L rest hgb hsort hrest hlast hid
  obtain ⟨e, he, h1, h2, -, -⟩ :=
    process_genre_estimate_two_anchor pos gb mb H L rest hgb hsort hrest hlast hid
  exact ⟨e, he, h1, h2⟩

/-- C2 witness: the two-anchor formula instantiated on the Scenario A
snapshot. -/
theorem two_anchor_formula_witness :
    scenarioAGenre ≠ [] ∧
    ∃ e, process_genre_estimate 15 scenarioAGenre scenarioAMain = .estimate e ∧
      e.scaling_factor = ((40 - 10 : ℤ) : ℚ) / ((max 1 |(30 : ℤ) - 3| : ℤ) : ℚ) :=
  ⟨by with_unfolding_all decide, by
    obtain ⟨e, he, h1, -⟩ := two_anchor_formula_and_scenarioA.1 15 scenarioAGenre scenarioAMain
      { book_id := 101, genre_position := 3, main_position := 10 }
      { book_id := 102, genre_position := 30, main_position := 40 }
      [{ book_id := 102, genre_position := 30, main_position := 40 }]
      (by with_unfolding_all decide) (by with_unfolding_all decide)
      (by with_unfolding_all decide) (by with_unfolding_all decide)
      (by with_unfolding_all decide)
    exact ⟨e, he, h1⟩⟩

/-- C3: on the module TTL cache, a get-or-fetch miss at `t1` runs the
fetch; a second call with the same key at any `t2` inside the TTL window
returns the stored value without fetching; a call after the TTL expired
fetches again. -/
theorem get_or_fetch_ttl_semantics {α : Type} (entries : List (CacheEntry α)) (k : String)
    (t1 t2 t3 : ℤ) (v w u : α)
    (hmiss : cacheLookup entries k t1 = none)
    (_h12 : t1 ≤ t2) (hin : t2 < t1 + cacheTTL) (hexp : t1 + cacheTTL ≤ t3) :
    (get_or_fetch entries k t1 v).2.2 = true ∧
    (get_or_fetch (get_or_fetch entries k t1 v).2.1 k t2 w).2.2 = false ∧
    (get_or_fetch (get_or_fetch entries k t1 v).2.1 k t2 w).1 = v ∧
    (get_or_fetch (get_or_fetch entries k t1 v).2.1 k t3 u).2.2 = true := by
  have hfirst : get_or_fetch entries k t1 v = (v, cacheStore entries k v t1, true) := by
    unfold get_or_fetch
    rw [hmiss]
  have hfind : List.find? (fun e => e.key == k) (cacheStore entries k v t1) =
      some { key := k, value := v, expiry := t1 + cacheTTL } := by
    unfold cacheStore
    exact List.find?_cons_of_pos _ (by simp)
  have hlook2 : cacheLookup (cacheStore entries k v t1) k t2 = some v := by
    unfold cacheLookup
    rw [hfind]
    exact if_pos hin
  have hlook3 : cacheLookup (cacheStore entries k v t1) k t3 = none := by
    unfold cacheLookup
    rw [hfind]
    refine if_neg ?_
    show ¬ t3 < t1 + cacheTTL
    omega
  refine ⟨by rw [hfirst], ?_, ?_, ?_⟩
  · rw [hfirst]
    unfold get_or_fetch
    rw [hlook2]
  · rw [hfirst]
    unfold get_or_fetch
    rw [hlook2]
  · rw [hfirst]
    unfold get_or_fetch
    rw [hlook3]

/-- C3 witness: a cold cache, a hit 100 seconds later, and a miss at the
1800-second TTL boundary. -/
theorem get_or_fetch_ttl_witness :
    cacheLookup ([] : List (CacheEntry ℕ)) "genre_books_Fantasy" 0 = none ∧
    (get_or_fetch ([] : List (CacheEntry ℕ)) "genre_books_Fantasy" 0 1).2.2 = true ∧
    (get_or_fetch (get_or_fetch ([] : List (CacheEntry ℕ)) "genre_books_Fantasy" 0 1).2.1
      "genre_books_Fantasy" 100 2).2.2 = false ∧
    (get_or_fetch (get_or_fetch ([] : List (CacheEntry ℕ)) "genre_books_Fantasy" 0 1).2.1
      "genre_books_Fantasy" 100 2).1 = 1 ∧
    (get_or_fetch (get_or_fetch ([] : List (CacheEntry ℕ)) "genre_books_Fantasy" 0 1).2.1
      "genre_books_Fantasy" 1800 3).2.2 = true :=
  ⟨rfl, get_or_fetch_ttl_semantics [] "genre_books_Fantasy" 0 100 1800 1 2 3 rfl
    (by norm_num) (by norm_num [cacheTTL]) (by norm_num [cacheTTL])⟩

/-- C4: per-secondary-list failures are non-fatal while a reference-list
failure is fatal and distinct. (1) With no main-list snapshot the whole
estimation returns the fatal error result. (2) With a main list and at
least two observed genre positions, whatever the per-genre fetches return —
including failures — the outcome is an estimates record whose combined
estimate is built from the per-list results. (3) A genre whose fetch failed
is recorded as a per-list fetch error, and (4) such an error contributes an
invalid combiner input instead of blocking combination. (5) The fatal
error is a different result constructor from any estimates record. -/
theorem failure_semantics (mainBooks : List BookEntry)
    (bookPositions : List (String × ℤ)) (genreFetch : String → List BookEntry) :
    (mainBooks = [] →
      estimate_distance_to_main_rs mainBooks bookPositions genreFetch = .fatalError) ∧
    (mainBooks ≠ [] → 2 ≤ bookPositions.length →
      ∃ b w m, estimate_distance_to_main_rs mainBooks bookPositions genreFetch =
        .estimates b w m (create_combined_estimate (toCombInput (some b)) (toCombInput w)
          (toCombInput m) mainBooks.length)) ∧
    (∀ (g : String) (p : ℤ), genreFetch g = [] →
      process_genre_estimate p (genreFetch g) mainBooks = .fetchError) ∧
    (toCombInput (some .fetchError) = .invalid) ∧
    (∀ b w m c, EstimateOutcome.estimates b w m c ≠ .fatalError) := by
  refine ⟨?_, ?_, ?_, rfl, fun b w m c h => EstimateOutcome.noConfusion h⟩
  · intro h
    subst h
    rfl
  · intro hmb hlen
    have hmb' : mainBooks.isEmpty = false := by simpa [List.isEmpty_iff] using hmb
    obtain ⟨⟨g, p⟩, tail, rfl⟩ : ∃ gp tail, bookPositions = gp :: tail := by
      cases bookPositions with
      | nil => simp at hlen
      | cons x xs => exact ⟨x, xs, rfl⟩
    unfold estimate_distance_to_main_rs
    rw [hmb']
    simp only [Bool.false_eq_true, if_false]
    rw [if_neg (by push_neg; exact_mod_cast hlen)]
    set sg := sortGP ((g, p) :: tail) with hsg
    set suit := sg.filter (isSuitable mainBooks genreFetch) with hsuit
    have hsel : (if suit.isEmpty then sg.take 3 else suit) ≠ [] := by
      split_ifs with hs
      · intro hzero
        have h1 := congrArg List.length hzero
        rw [List.length_take, hsg, sortGP_length] at h1
        simp at h1
      · simpa [List.isEmpty_iff] using hs
    obtain ⟨s0, srest, hcons⟩ := List.exists_cons_of_ne_nil hsel
    rw [hcons]
    dsimp only
    exact ⟨_, _, _, rfl⟩
  · intro g2 p2 hf
    rw [hf]
    rfl

/-- C4 witness: two observed genres whose fetches all fail — the outcome is
still an estimates record with a combined estimate attempted. -/
theorem failure_semantics_witness :
    singleAnchorMain ≠ [] ∧
    2 ≤ ([("Fantasy", (3 : ℤ)), ("Romance", 7)] : List (String × ℤ)).length ∧
    ∃ b w m, estimate_distance_to_main_rs singleAnchorMain
        [("Fantasy", 3), ("Romance", 7)] (fun _ => []) =
      .estimates b w m (create_combined_estimate (toCombInput (some b)) (toCombInput w)
        (toCombInput m) singleAnchorMain.length) :=
  ⟨by with_unfolding_all decide, by with_unfolding_all decide,
   (failure_semantics singleAnchorMain [("Fantasy", 3), ("Romance", 7)] (fun _ => [])).2.1
     (by with_unfolding_all decide) (by with_unfolding_all decide)⟩

/-- C5: a per-list estimate is IN_RANGE exactly when its estimated position
is at most the reference-list size, otherwise OUTSIDE_RANGE with
`positions_away = estimated_position − size`; the combined estimate
satisfies the same relation on its own recorded size. -/
theorem status_positions_away_consistent :
    (∀ (pos : ℤ) (gb mb : List BookEntry) (e : GenreEstimate),
      process_genre_estimate pos gb mb = .estimate e →
      (e.status = .inRange ↔ e.estimated_position ≤ (e.main_rs_size : ℤ)) ∧
      (e.status = .outsideRange → e.positions_away =
        some (e.estimated_position - e.main_rs_size))) ∧
    (∀ (b w m : CombInput) (size : ℕ) (c : CombinedEstimate),
      create_combined_estimate b w m size = .combined c →
      (c.status = .inRange ↔ c.estimated_position ≤ (c.main_rs_size : ℤ)) ∧
      (c.status = .outsideRange → c.positions_away =
        some (c.estimated_position - c.main_rs_size))) := by
  constructor
  · intro pos gb mb e h
    unfold process_genre_estimate at h
    split at h
    · exact absurd h (by simp)
    · split at h
      · exact absurd h (by simp)
      · dsimp only at h
        split at h <;> (try split at h) <;> exact finishEstimate_status _ _ _ _ _ h
  · intro b w m size c h
    unfold create_combined_estimate at h
    cases b with
    | insuff g p => exact absurd h (by simp)
    | invalid =>
      dsimp only at h
      split at h
      · exact absurd h (by simp)
      · split_ifs at h with hc <;> (injection h with h; subst h) <;> simpa using hc
    | est e =>
      dsimp only at h
      split at h
      · exact absurd h (by simp)
      · split_ifs at h with hc <;> (injection h with h; subst h) <;> simpa using hc

/-- C5 witness: the consistency relation evaluated on the Scenario A
estimate. -/
theorem status_positions_away_witness :
    process_genre_estimate 15 scenarioAGenre scenarioAMain = .estimate scenarioAEstimate ∧
    (scenarioAEstimate.status = .inRange ↔
      scenarioAEstimate.estimated_position ≤ (scenarioAEstimate.main_rs_size : ℤ)) ∧
    (scenarioAEstimate.status = .outsideRange → scenarioAEstimate.positions_away =
      some (scenarioAEstimate.estimated_position - scenarioAEstimate.main_rs_size)) :=
  ⟨by with_unfolding_all decide,
   status_positions_away_consistent.1 15 scenarioAGenre scenarioAMain scenarioAEstimate
     (by with_unfolding_all decide)⟩

/-- C6 counterexample: with the single anchor at genre position 20 and main
position 3, observed positions 10 and 5 give distances 10 and 15 from the
anchor, yet both estimates clamp to 1 (`max(1, 3 − distance)`, line 699),
so `|estimated − anchor.main|` stays 2 — the increase is not strict. -/
theorem single_anchor_clamp_cx :
    sortCB (commonBooksOf singleAnchorGenre singleAnchorMain) =
      [{ book_id := 7, genre_position := 20, main_position := 3 }] ∧
    process_genre_estimate 10 singleAnchorGenre singleAnchorMain =
      .estimate { scaling_factor := 1, estimated_position := 1, main_rs_size := 3,
                  common_books_count := 1, status := .inRange, positions_away := none } ∧
    process_genre_estimate 5 singleAnchorGenre singleAnchorMain =
      .estimate { scaling_factor := 1, estimated_position := 1, main_rs_size := 3,
                  common_books_count := 1, status := .inRange, positions_away := none } ∧
    |(10 : ℤ) - 20| < |(5 : ℤ) - 20| ∧
    ¬ |(1 : ℤ) - 3| < |(1 : ℤ) - 3| := by
  with_unfolding_all decide

/-- C6 (amended): single-anchor extrapolation strictly increases
`|estimated − anchor.main_position|` with the distance
`|observed − anchor.genre_position|` provided the larger-distance estimate
is not clamped at 1, i.e. if it ranks above the anchor then
`anchor.main_position − distance ≥ 1` (the anchor's main position being at
least 1, as every real position is). -/
theorem single_anchor_monotonic_unclamped (gb mb : List BookEntry) (a : CommonBook)
    (o1 o2 : ℤ) (hgb : gb ≠ []) (hsort : sortCB (commonBooksOf gb mb) = [a])
    (hm : 1 ≤ a.main_position)
    (hlt : |o1 - a.genre_position| < |o2 - a.genre_position|)
    (hnc : o2 < a.genre_position → 1 ≤ a.main_position - |o2 - a.genre_position|) :
    ∃ e1 e2, process_genre_estimate o1 gb mb = .estimate e1 ∧
      process_genre_estimate o2 gb mb = .estimate e2 ∧
      |e1.estimated_position - a.main_position| < |e2.estimated_position - a.main_position| := by
  obtain ⟨e1, he1, -, hest1, -, -⟩ := process_genre_estimate_single_anchor o1 gb mb a hgb hsort
  obtain ⟨e2, he2, -, hest2, -, -⟩ := process_genre_estimate_single_anchor o2 gb mb a hgb hsort
  refine ⟨e1, e2, he1, he2, ?_⟩
  rw [hest1, hest2]
  set g := a.genre_position
  set mpos := a.main_position
  set d1 := |o1 - g| with hd1
  set d2 := |o2 - g| with hd2
  have hd1n : 0 ≤ d1 := abs_nonneg _
  have hd2n : 0 ≤ d2 := abs_nonneg _
  have h2val : |(if o2 < g then max 1 (mpos - d2) else mpos + d2) - mpos| = d2 := by
    split_ifs with h
    · rw [max_eq_right (hnc h), show mpos - d2 - mpos = -d2 by ring, abs_neg,
        abs_of_nonneg hd2n]
    · rw [show mpos + d2 - mpos = d2 by ring, abs_of_nonneg hd2n]
  rw [h2val]
  split_ifs with h
  · rcases le_or_lt 1 (mpos - d1) with hcl | hcl
    · rw [max_eq_right hcl, show mpos - d1 - mpos = -d1 by ring, abs_neg,
        abs_of_nonneg hd1n]
      exact hlt
    · rw [max_eq_left hcl.le, abs_of_nonpos (by omega)]
      omega
  · rw [show mpos + d1 - mpos = d1 by ring, abs_of_nonneg hd1n]
    exact hlt

/-- C6 witness: observed positions 21 and 26 below the single anchor
(genre 20, main 3) give estimates 4 and 9, with distances from the anchor's
main position 1 < 6. -/
theorem single_anchor_monotonic_witness :
    singleAnchorGenre ≠ [] ∧
    |(21 : ℤ) - 20| < |(26 : ℤ) - 20| ∧
    ∃ e1 e2, process_genre_estimate 21 singleAnchorGenre singleAnchorMain = .estimate e1 ∧
      process_genre_estimate 26 singleAnchorGenre singleAnchorMain = .estimate e2 ∧
      |e1.estimated_position - (3 : ℤ)| < |e2.estimated_position - (3 : ℤ)| :=
  ⟨by with_unfolding_all decide, by with_unfolding_all decide,
   single_anchor_monotonic_unclamped singleAnchorGenre singleAnchorMain
     { book_id := 7, genre_position := 20, main_position := 3 } 21 26
     (by with_unfolding_all decide) (by with_unfolding_all decide)
     (by with_unfolding_all decide) (by with_unfolding_all decide)
     (by with_unfolding_all decide)⟩

/-- C7 counterexample: anchors H = (genre 10, main 5) and L = (genre 3,
main 20) are inverted between the lists. Evaluating at L's own genre
position 3 runs the above-H branch (`3 < 10`), subtracting
`7 × (15/7) = 15` from 5 and clamping: the estimate is 1, not L's main
position 20. -/
theorem inverted_anchor_cx :
    sortCB (commonBooksOf invertedGenre invertedMain) =
      [{ book_id := 201, genre_position := 10, main_position := 5 },
       { book_id := 202, genre_position := 3, main_position := 20 }] ∧
    process_genre_estimate 3 invertedGenre invertedMain =
      .estimate { scaling_factor := 15/7, estimated_position := 1, main_rs_size := 20,
                  common_books_count := 2, status := .inRange, positions_away := none } ∧
    (1 : ℤ) ≠ 20 := by
  with_unfolding_all decide

/-- C7 (amended): two-anchor interpolation reproduces `H` exactly at `H`'s
genre position; it reproduces `L` at `L`'s genre position provided `L` ranks
below `H` in the secondary list (`H.genre_position < L.genre_position`). -/
theorem two_anchor_reproduces_anchors (gb mb : List BookEntry) (H L : CommonBook)
    (rest : List CommonBook) (hgb : gb ≠ [])
    (hsort : sortCB (commonBooksOf gb mb) = H :: rest) (hrest : rest ≠ [])
    (hlast : rest.getLastD H = L) (hid : H.book_id ≠ L.book_id) :
    (∃ e, process_genre_estimate H.genre_position gb mb = .estimate e ∧
      e.estimated_position = H.main_position) ∧
    (H.genre_position < L.genre_position →
      ∃ e, process_genre_estimate L.genre_position gb mb = .estimate e ∧
        e.estimated_position = L.main_position) := by
  constructor
  · obtain ⟨e, he, -, hest, -, -⟩ := process_genre_estimate_two_anchor H.genre_position
      gb mb H L rest hgb hsort hrest hlast hid
    refine ⟨e, he, ?_⟩
    rw [hest, if_neg (lt_irrefl _)]
    rw [sub_self, abs_zero, Int.cast_zero, zero_mul, add_zero, pythonRound_intCast]
  · intro hHL
    obtain ⟨e, he, -, hest, -, -⟩ := process_genre_estimate_two_anchor L.genre_position
      gb mb H L rest hgb hsort hrest hlast hid
    refine ⟨e, he, ?_⟩
    rw [hest, if_neg (not_lt.mpr hHL.le)]
    have hd : |L.genre_position - H.genre_position| = L.genre_position - H.genre_position :=
      abs_of_pos (by omega)
    have hmax : max 1 |L.genre_position - H.genre_position| =
        L.genre_position - H.genre_position := by
      rw [hd]
      omega
    rw [hmax, hd]
    have hne2 : ((L.genre_position : ℚ) - H.genre_position) ≠ 0 :=
      sub_ne_zero.mpr (by exact_mod_cast
        (by omega : L.genre_position ≠ H.genre_position))
    have hcalc : (H.main_position : ℚ) + ((L.genre_position - H.genre_position : ℤ) : ℚ) *
        (((L.main_position - H.main_position : ℤ) : ℚ) /
          ((L.genre_position - H.genre_position : ℤ) : ℚ)) = ((L.main_position : ℤ) : ℚ) := by
      push_cast
      rw [mul_div_cancel₀ _ hne2]
      ring
    rw [hcalc, pythonRound_intCast]

/-- C7 witness: the amended anchor-reproduction rule on the Scenario A
snapshot — the estimator returns 10 at genre position 3 and 40 at genre
position 30. -/
theorem two_anchor_reproduces_witness :
    scenarioAGenre ≠ [] ∧ (3 : ℤ) < 30 ∧
    ((∃ e, process_genre_estimate 3 scenarioAGenre scenarioAMain = .estimate e ∧
        e.estimated_position = 10) ∧
     ((3 : ℤ) < 30 →
       ∃ e, process_genre_estimate 30 scenarioAGenre scenarioAMain = .estimate e ∧
         e.estimated_position = 40)) :=
  ⟨by with_unfolding_all decide, by with_unfolding_all decide,
   two_anchor_reproduces_anchors scenarioAGenre scenarioAMain
     { book_id := 101, genre_position := 3, main_position := 10 }
     { book_id := 102, genre_position := 30, main_position := 40 }
     [{ book_id := 102, genre_position := 30, main_position := 40 }]
     (by with_unfolding_all decide) (by with_unfolding_all decide)
     (by with_unfolding_all decide) (by with_unfolding_all decide)
     (by with_unfolding_all decide)⟩

/-- C8: a returned body shorter than 500 characters is rejected and the
loop retries exactly as for a raised request (one attempt consumed); when
all three attempts fail, `fetch_with_retries` raises the exhaustion error
instead of returning a value. -/
theorem short_response_retry_exhaustion :
    (∀ (attempt : ℕ → Option String) (start fuel : ℕ) (body : String),
      attempt start = some body → body.length < 500 →
      fetchFrom attempt start (fuel + 1) = fetchFrom attempt (start + 1) fuel) ∧
    (∀ attempt : ℕ → Option String,
      (∀ i, i < 3 → attempt i = none ∨ ∃ body, attempt i = some body ∧ body.length < 500) →
      fetch_with_retries attempt = .error "Failed to fetch data after 3 attempts") := by
  constructor
  · intro attempt start fuel body hat hlen
    exact fetchFrom_step attempt start fuel (Or.inr ⟨body, hat, hlen⟩)
  · intro attempt hfail
    unfold fetch_with_retries
    rw [show (3 : ℕ) = 2 + 1 from rfl, fetchFrom_step attempt 0 2 (hfail 0 (by omega)),
      show (2 : ℕ) = 1 + 1 from rfl, fetchFrom_step attempt 1 1 (hfail 1 (by omega)),
      show (1 : ℕ) = 0 + 1 from rfl, fetchFrom_step attempt 2 0 (hfail 2 (by omega))]
    rfl

/-- C8 witness: a 2-character body at attempt 0 consumes one attempt, and a
fetch whose attempts all raise ends in the exhaustion error. -/
theorem short_response_retry_witness :
    (fun _ => some "ab" : ℕ → Option String) 0 = some "ab" ∧
    "ab".length < 500 ∧
    fetchFrom (fun _ => some "ab") 0 3 = fetchFrom (fun _ => some "ab") 1 2 ∧
    fetch_with_retries (fun _ => none) = .error "Failed to fetch data after 3 attempts" :=
  ⟨rfl, by decide,
   short_response_retry_exhaustion.1 (fun _ => some "ab") 0 2 "ab" rfl (by decide),
   short_response_retry_exhaustion.2 (fun _ => none) (fun i _ => Or.inl rfl)⟩

/-- C9: with the book observed on exactly one genre list, the estimation
returns the insufficient-data verdict carrying that genre's name and the
observed position, a result constructor distinct from any estimates record
and carrying no numeric estimate field. -/
theorem insufficient_data_single_genre (mainBooks : List BookEntry) (g : String) (p : ℤ)
    (genreFetch : String → List BookEntry) (hmb : mainBooks ≠ []) :
    estimate_distance_to_main_rs mainBooks [(g, p)] genreFetch = .insufficientData g p ∧
    ∀ b w m c, EstimateOutcome.insufficientData g p ≠ .estimates b w m c := by
  constructor
  · have hmb' : mainBooks.isEmpty = false := by simpa [List.isEmpty_iff] using hmb
    unfold estimate_distance_to_main_rs
    rw [hmb']
    simp only [Bool.false_eq_true, if_false]
    rw [if_pos (by simp)]
  · intro b w m c h
    exact EstimateOutcome.noConfusion h

/-- C9 witness: one observed genre against a 3-entry main list. -/
theorem insufficient_data_witness :
    singleAnchorMain ≠ [] ∧
    estimate_distance_to_main_rs singleAnchorMain [("Fantasy", 7)] (fun _ => []) =
      .insufficientData "Fantasy" 7 :=
  ⟨by with_unfolding_all decide,
   (insufficient_data_single_genre singleAnchorMain "Fantasy" 7 (fun _ => [])
     (by with_unfolding_all decide)).1⟩

/-- C10: whenever `fetch_with_retries` returns a body instead of raising,
that body is at least 500 characters long — shorter responses are rejected
before they can reach parsing code. -/
theorem fetch_returns_long_bodies (attempt : ℕ → Option String) (body : String)
    (h : fetch_with_retries attempt = .ok body) : 500 ≤ body.length :=
  fetchFrom_ok_length attempt 3 0 body h

set_option maxRecDepth 10000 in
/-- C10 witness: a successful fetch of a 500-character body. -/
theorem fetch_returns_long_witness :
    fetch_with_retries (fun _ => some longBody) = .ok longBody ∧ 500 ≤ longBody.length :=
  ⟨by with_unfolding_all rfl,
   fetch_returns_long_bodies (fun _ => some longBody) longBody
     (by with_unfolding_all rfl)⟩

end RisingStars
